import Mathlib

/-!
Verification development for the DoorBell-NodeMCU32 firmware.

The repository contains two firmware variants sharing one core design:
variant A (analog input mode, with the ADC session classifier, the deferred
timer and the busy-pin playback tracking) and variant B (digital input mode,
with the panic/emergency detector).  This file gives a shallow embedding of
the control logic of both variants and proves properties about it.

Modelling conventions:
* `millis()` timestamps are `Nat`.  All subtractions `now - past` in the
  source are on `unsigned long` values where `past` is a previously recorded
  `millis()` value, so with monotone time the C wrap-around subtraction
  coincides with truncated `Nat` subtraction.
* ADC voltages are C `float` values; they are modelled as exact rationals
  (`Rat`).  Every voltage constant of the firmware (3.0, 0.3 and the sample
  values of the scenarios, all multiples of 0.1) is handled far from any
  rounding boundary, so exact-rational comparison agrees with `float`
  comparison on the modelled inputs.
* Calls that only produce output (MQTT publishes, debug prints, LED writes,
  DFPlayer commands) are modelled either as recorded events (the `events`
  and `plays` trace fields, and the returned `TimerNote`) or dropped when no
  claim mentions them.
* `uint8_t` / `uint16_t` / `int` fields are modelled as `Nat` or `Int`; a
  comment at each definition records the original width and why no wrap can
  occur on the modelled ranges.
-/

/-! ## Volume conversion (`percentToVolume`, identical in both variants) -/

/-- From the source: `uint8_t percentToVolume(uint8_t percent) { return
(percent * 30) / 100; }`.  `percent` is promoted to `int` so the product
(at most 255 * 30 = 7650) cannot overflow, and the quotient (at most 76)
fits back into `uint8_t` without wrapping, so plain `Nat` arithmetic is
exact for every `uint8_t` input. -/
def percentToVolume (percent : Nat) : Nat :=
  percent * 30 / 100

/-- Conversion as the specification words it: `round(percent * max_native /
100)` with `max_native = 30`, rounding half up.  This definition follows the
spec text, not the source; it exists to be compared with `percentToVolume`. -/
def roundPercentToVolumeSpec (percent : Nat) : Nat :=
  (percent * 30 + 50) / 100

/-! ## Digital debounce classifier (variant A, `isValidButtonPress`) -/

/-- Per-channel debounce state, from `struct ButtonState`. -/
structure ButtonState where
  isPressed : Bool
  wasPressed : Bool
  pressStartTime : Nat
  lastValidPressTime : Nat
  isValidPress : Bool
deriving DecidableEq

/-- From the source function `isValidButtonPress(ButtonState&, unsigned
long)`: rising edge records `pressStartTime` and clears validity; while held,
validity is set once 200 ms have elapsed since `pressStartTime`; release
clears `wasPressed` and validity.  The C function mutates the state and
returns `state.isValidPress`; here the updated state is returned (the C
return value is the `isValidPress` field of the result). -/
def isValidButtonPress (state : ButtonState) (currentTime : Nat) : ButtonState :=
  if state.isPressed = true ∧ state.wasPressed = false then
    { state with pressStartTime := currentTime, wasPressed := true, isValidPress := false }
  else if state.isPressed = true ∧ state.wasPressed = true then
    if 200 ≤ currentTime - state.pressStartTime then
      { state with isValidPress := true, lastValidPressTime := currentTime }
    else
      state
  else if state.isPressed = false ∧ state.wasPressed = true then
    { state with wasPressed := false, isValidPress := false }
  else
    state

/-- One poll of a channel, from `checkButtons`: the raw `digitalRead` level
is stored into `isPressed` and then `isValidButtonPress` runs. -/
def pollButton (state : ButtonState) (raw : Bool) (currentTime : Nat) : ButtonState :=
  isValidButtonPress { state with isPressed := raw } currentTime

/-- A run of polls during which the raw input stays high. -/
def holdRun (state : ButtonState) (times : List Nat) : ButtonState :=
  times.foldl (fun acc time => pollButton acc true time) state

/-- Initial per-channel state (global zero-initialised `buttonStates`). -/
def buttonInit : ButtonState :=
  { isPressed := false, wasPressed := false, pressStartTime := 0,
    lastValidPressTime := 0, isValidPress := false }

/-! ## Analog session classifier (variant A, `checkADC` / `analyzeSession`)

Constants from `src/input_config.h`. -/

def MIN_SESSION_DURATION : Nat := 200

def ADC_THRESHOLD : Rat := 3

def ADC_HYSTERESIS : Rat := mkRat 3 10

def MAX_SESSION_SAMPLES : Nat := 1000

def ADC_DROPOUT_TOLERANCE : Nat := 15

/-- The dropout cutoff `ADC_THRESHOLD - ADC_HYSTERESIS` (3.0 - 0.3 = 2.7 V),
written in normalised form so that it evaluates inside the kernel; the
theorem `adcLowCutoff_eq` below proves it equal to the source expression. -/
def adcLowCutoff : Rat := mkRat 27 10

/-- One processed ADC sample: the two converted voltages at one tick of
`checkADC` that passed the `ADC_SAMPLE_INTERVAL` gate, together with the
`millis()` timestamp `t` at which it was taken. -/
structure Tick where
  t : Nat
  v1 : Rat
  v2 : Rat
deriving DecidableEq

/-- From `struct ADCReading` (the ANSI bar-graph string is presentation only
and carries no control-flow information, so it is not modelled). -/
structure ADCReading where
  voltage1 : Rat
  voltage2 : Rat
  delta : Nat
deriving DecidableEq

/-- From `struct ADCSession`; the fixed `readings[MAX_SESSION_SAMPLES]`
array together with `numReadings` is modelled as a list whose length is
`numReadings` (slots past `numReadings` are never read by the firmware). -/
structure ADCSession where
  startTime : Nat
  endTime : Nat
  isActive : Bool
  maxVoltage : Rat
  buttonDetected : Int
  readings : List ADCReading
deriving DecidableEq

/-- A validated press emitted by `analyzeSession` (the call into
`handleSimulatedButton`): which button was attributed and the session
bounds. -/
structure AdcEvent where
  button : Int
  startTime : Nat
  endTime : Nat
deriving DecidableEq

/-- The global state read and written by `checkADC` and its callees:
`currentSession`, `lastValidVoltage`, `isPlaying`, `lastPlayTime`, plus the
trace of emitted validated presses.  (`volumeResetTimer` is written but
never read in this variant and is omitted.) -/
structure AdcMachine where
  session : ADCSession
  lastValidVoltage : Nat
  isPlaying : Bool
  lastPlayTime : Nat
  events : List AdcEvent
deriving DecidableEq

/-- `voltage1 >= ADC_THRESHOLD || voltage2 >= ADC_THRESHOLD`. -/
def tickHigh (k : Tick) : Prop :=
  ADC_THRESHOLD ≤ k.v1 ∨ ADC_THRESHOLD ≤ k.v2

instance (k : Tick) : Decidable (tickHigh k) :=
  inferInstanceAs (Decidable (ADC_THRESHOLD ≤ k.v1 ∨ ADC_THRESHOLD ≤ k.v2))

/-- `voltage1 < (ADC_THRESHOLD - ADC_HYSTERESIS) && voltage2 <
(ADC_THRESHOLD - ADC_HYSTERESIS)` (see `adcLowCutoff_eq`). -/
def tickLow (k : Tick) : Prop :=
  k.v1 < adcLowCutoff ∧ k.v2 < adcLowCutoff

instance (k : Tick) : Decidable (tickLow k) :=
  inferInstanceAs (Decidable (k.v1 < adcLowCutoff ∧ k.v2 < adcLowCutoff))

/-- Session-start assignments of `checkADC` (lines starting a new session):
`startTime`, `isActive`, `maxVoltage`, `numReadings = 0`, and the button
attribution: DOOR (1) if ADC2 is at threshold, else DOWNSTAIRS (0) if ADC1
is (the starting tick always satisfies one of the two). -/
def startSession (s : ADCSession) (k : Tick) : ADCSession :=
  { s with startTime := k.t, isActive := true, maxVoltage := max k.v1 k.v2,
           readings := [],
           buttonDetected :=
             if ADC_THRESHOLD ≤ k.v2 then 1
             else if ADC_THRESHOLD ≤ k.v1 then 0
             else s.buttonDetected }

/-- The per-sample session update: `maxVoltage` and the appended
`ADCReading` with `delta = currentTime - startTime`. -/
def applyReading (s : ADCSession) (k : Tick) : ADCSession :=
  { s with maxVoltage := max s.maxVoltage (max k.v1 k.v2),
           readings := s.readings ++
             [{ voltage1 := k.v1, voltage2 := k.v2, delta := k.t - s.startTime }] }

/-- Session reset at a normal end of session: `isActive = false`,
`maxVoltage = 0.0`, `buttonDetected = -1`, `numReadings = 0`. -/
def resetSession (s : ADCSession) : ADCSession :=
  { s with isActive := false, maxVoltage := 0, buttonDetected := -1, readings := [] }

/-- From `handleNormalDoorbell` of variant A, restricted to the state it
reads and writes: it returns immediately when `isPlaying` or when the
cooldown since `lastPlayTime` has not elapsed; otherwise it starts playback
(the track/volume sent to the DFPlayer depend only on the button index and
configuration and are not state). -/
def handleNormalDoorbell (cooldown : Nat) (m : AdcMachine) (now : Nat) : AdcMachine :=
  if m.isPlaying = true ∨ now - m.lastPlayTime < cooldown then m
  else { m with isPlaying := true, lastPlayTime := now }

/-- From `analyzeSession(ADCSession&)`: skip when there are no readings or
the session is shorter than `MIN_SESSION_DURATION`; otherwise the button
decided at session start (1 = DOOR, 0 = DOWNSTAIRS) triggers
`handleSimulatedButton`, which forwards to `handleNormalDoorbell`.  The
emitted validated press is recorded on the `events` trace. -/
def analyzeSession (cooldown : Nat) (m : AdcMachine) (now : Nat) : AdcMachine :=
  if m.session.readings.length = 0 then m
  else if m.session.endTime - m.session.startTime < MIN_SESSION_DURATION then m
  else if m.session.buttonDetected = 1 ∨ m.session.buttonDetected = 0 then
    handleNormalDoorbell cooldown
      { m with events := m.events ++
          [{ button := m.session.buttonDetected,
             startTime := m.session.startTime,
             endTime := m.session.endTime }] } now
  else m

/-- The session-start conditional of `checkADC`: a session starts when
either voltage reaches `ADC_THRESHOLD`, no session is active and no playback
is in progress. -/
def adcStart (m : AdcMachine) (k : Tick) : AdcMachine :=
  if tickHigh k ∧ m.session.isActive = false ∧ m.isPlaying = false then
    { m with session := startSession m.session k }
  else m

/-- The end-of-sample classification of `checkADC` (after the reading has
been appended): dropout handling with `lastValidVoltage` /
`ADC_DROPOUT_TOLERANCE`, the `MIN_SESSION_DURATION` end, and the
`lastValidVoltage` refresh on above-threshold samples. -/
def adcClassify (cooldown : Nat) (m : AdcMachine) (k : Tick) : AdcMachine :=
  if tickLow k then
    if k.t - m.lastValidVoltage ≤ ADC_DROPOUT_TOLERANCE then m
    else
      let m1 := { m with session := { m.session with endTime := k.t } }
      let m2 := if MIN_SESSION_DURATION ≤ m1.session.endTime - m1.session.startTime
                then analyzeSession cooldown m1 k.t else m1
      { m2 with session := resetSession m2.session }
  else if MIN_SESSION_DURATION ≤ k.t - m.session.startTime then
    let m1 := { m with session := { m.session with endTime := k.t } }
    let m2 := analyzeSession cooldown m1 k.t
    { m2 with session := resetSession m2.session }
  else if tickHigh k then { m with lastValidVoltage := k.t }
  else m

/-- The active-session block of `checkADC`: the buffer-full early end
(before appending), then the reading append and the classification. -/
def adcActive (cooldown : Nat) (m : AdcMachine) (k : Tick) : AdcMachine :=
  if m.session.isActive = true then
    if MAX_SESSION_SAMPLES ≤ m.session.readings.length then
      { m with session := { m.session with isActive := false } }
    else adcClassify cooldown { m with session := applyReading m.session k } k
  else m

/-- One processed sample of `checkADC` (a tick that passed the
`ADC_SAMPLE_INTERVAL` gate): the session-start check followed by the
active-session block. -/
def checkADC (cooldown : Nat) (m : AdcMachine) (k : Tick) : AdcMachine :=
  adcActive cooldown (adcStart m k) k

/-- Initial globals of variant A: `currentSession = {0, 0, false, 0.0, -1,
0}`, `lastValidVoltage = 0`, `isPlaying = false`, `lastPlayTime = 0`. -/
def adcInit : AdcMachine :=
  { session := { startTime := 0, endTime := 0, isActive := false, maxVoltage := 0,
                 buttonDetected := -1, readings := [] },
    lastValidVoltage := 0, isPlaying := false, lastPlayTime := 0, events := [] }

/-- Processing a stream of samples from the initial state. -/
def runADC (cooldown : Nat) (ts : List Tick) : AdcMachine :=
  ts.foldl (checkADC cooldown) adcInit

/-- Sample timestamps are strictly increasing (`millis()` is monotone and
`checkADC` processes at most one sample per `ADC_SAMPLE_INTERVAL`). -/
def ticksAscending (ts : List Tick) : Prop :=
  List.Pairwise (fun a b => a.t < b.t) ts

instance (ts : List Tick) : Decidable (ticksAscending ts) :=
  inferInstanceAs (Decidable (List.Pairwise _ ts))

/-- The timestamp of the last sample of the stream `ts` that belongs to the
session started at `st` (timestamp at least `st`) and is above threshold.
This is the quantity the dropout tolerance is measured from. -/
def sessionLastHigh (ts : List Tick) (st : Nat) : Option Nat :=
  ((ts.filter (fun k => decide (st ≤ k.t ∧ tickHigh k))).getLast?).map Tick.t

/-- Invariant tying `lastValidVoltage` to the processed sample stream:
whenever the session is active, `lastValidVoltage` is exactly the timestamp
of the last above-threshold sample of the current session (and such a
sample exists, the starting one at the latest). -/
def AdcInv (ts : List Tick) (m : AdcMachine) : Prop :=
  m.session.isActive = true →
    sessionLastHigh ts m.session.startTime = some m.lastValidVoltage ∧
    m.session.startTime ≤ m.lastValidVoltage ∧
    ∃ j ∈ ts, j.t = m.lastValidVoltage

/-- The sample stream of the dropout-tolerance scenario: channel 2 at 3.2 V
for 250 ms, 0 V for 5 ms, 3.1 V for 100 ms, then 0 V; channel 1 silent;
one sample every `ADC_SAMPLE_INTERVAL` = 5 ms. -/
def scenarioVoltage (t : Nat) : Rat :=
  if t < 250 then mkRat 16 5
  else if t < 255 then 0
  else if t < 355 then mkRat 31 10
  else 0

/-- 81 samples at t = 0, 5, ..., 400 ms covering the whole scenario. -/
def scenarioTicks : List Tick :=
  (List.range 81).map (fun i => { t := 5 * i, v1 := 0, v2 := scenarioVoltage (5 * i) })

/-! ## Variant B: debounce gate, panic detector and playback cooldown
(`handleButton`) -/

/-- The fields of variant B `struct Config` read by `handleButton`
(`panic_press_threshold` is `uint8_t`, the rest `uint16_t`; all are under
2^16 and the arithmetic on them stays far below `Nat` overflow concerns;
`panic_window * 1000` is widened to `unsigned long` in the source by the
`1000UL` literal, so no 16-bit wrap occurs there either). -/
structure DeviceConfig where
  panic_press_threshold : Nat
  panic_window : Nat
  button_cooldown_ms : Nat
  volume_reset_ms : Nat
deriving DecidableEq

/-- `debounceDelay` of variant B. -/
def debounceDelay : Nat := 200

/-- The globals of variant B read and written by `handleButton`, plus the
trace `plays` of the times at which a normal (non-emergency) playback was
started (each entry corresponds to one `dfPlayer.play` call of the normal
doorbell branch). -/
structure DoorbellState where
  lastDebounceTime : Nat
  emergencyMode : Bool
  firstPressTime : Nat
  pressCount : Nat
  emergencyStartTime : Nat
  lastPlayTime : Nat
  volumeResetTimer : Nat
  isPlaying : Bool
  plays : List Nat
deriving DecidableEq

/-- The normal doorbell section of `handleButton` (the trailing
`if (!emergencyMode)` block): within it, playback is skipped when
`isPlaying && (currentTime - lastPlayTime < config.button_cooldown_ms)`;
otherwise the configured track is played and `lastPlayTime`,
`volumeResetTimer`, `isPlaying` are set.  Which track/volume plays depends
only on the button and configuration, not on state, so only the playback
start itself is recorded. -/
def normalDoorbell (cfg : DeviceConfig) (s : DoorbellState) (now : Nat) : DoorbellState :=
  if s.emergencyMode = true then s
  else if s.isPlaying = true ∧ now - s.lastPlayTime < cfg.button_cooldown_ms then s
  else { s with lastPlayTime := now, volumeResetTimer := now, isPlaying := true,
                plays := s.plays ++ [now] }

/-- The panic-detection section of `handleButton` followed by the normal
doorbell section.  Only DOOR presses outside emergency mode touch the
counter; when the incremented count reaches the threshold the function
switches to emergency mode, zeroes the counter and returns without normal
handling. -/
def panicThenNormal (cfg : DeviceConfig) (s : DoorbellState) (isDoor : Bool) (now : Nat) :
    DoorbellState :=
  if s.emergencyMode = false ∧ isDoor = true then
    if s.pressCount = 0 then
      normalDoorbell cfg { s with firstPressTime := now, pressCount := 1 } now
    else if now - s.firstPressTime ≤ cfg.panic_window * 1000 then
      if cfg.panic_press_threshold ≤ s.pressCount + 1 then
        { s with pressCount := 0, emergencyMode := true, emergencyStartTime := now }
      else
        normalDoorbell cfg { s with pressCount := s.pressCount + 1 } now
    else
      normalDoorbell cfg { s with firstPressTime := now, pressCount := 1 } now
  else normalDoorbell cfg s now

/-- The volume-reset check at the top of `handleButton`: when playing and
`volume_reset_ms` has elapsed since `volumeResetTimer`, the volume is
zeroed at the device and `isPlaying` is cleared. -/
def volumeResetStep (cfg : DeviceConfig) (s : DoorbellState) (now : Nat) : DoorbellState :=
  if s.isPlaying = true ∧ cfg.volume_reset_ms ≤ now - s.volumeResetTimer
  then { s with isPlaying := false } else s

/-- From variant B `handleButton(int button, bool simulated)`: the
`debounceDelay` gate (which records `lastDebounceTime`), the volume-reset
clearing of `isPlaying`, the panic detector and the normal doorbell
handling, in source order. -/
def handleButton (cfg : DeviceConfig) (s : DoorbellState) (isDoor : Bool) (now : Nat) :
    DoorbellState :=
  if now - s.lastDebounceTime < debounceDelay then s
  else
    panicThenNormal cfg (volumeResetStep cfg { s with lastDebounceTime := now } now) isDoor now

/-- Initial globals of variant B: counters and timers zero, no emergency,
not playing. -/
def doorbellInit : DoorbellState :=
  { lastDebounceTime := 0, emergencyMode := false, firstPressTime := 0, pressCount := 0,
    emergencyStartTime := 0, lastPlayTime := 0, volumeResetTimer := 0, isPlaying := false,
    plays := [] }

/-- Configuration for the panic-window scenario: threshold 10 presses,
window 1 s (so that three presses never reach the threshold and the window
arithmetic is what matters). -/
def panicCfg : DeviceConfig :=
  { panic_press_threshold := 10, panic_window := 1, button_cooldown_ms := 15000,
    volume_reset_ms := 60000 }

/-- Three door presses at 1000, 1600 and 2200 ms from the initial state:
every inter-press gap is 600 ms, well inside the 1 s window. -/
def panicRun : DoorbellState :=
  handleButton panicCfg
    (handleButton panicCfg (handleButton panicCfg doorbellInit true 1000) true 1600)
    true 2200

/-- Configuration with `volume_reset_ms` (100 ms) below `button_cooldown_ms`
(15 s).  Both fields are stored by the `doorbell/set/emergency` handler
without range validation, so this configuration is reachable. -/
def shortResetCfg : DeviceConfig :=
  { panic_press_threshold := 5, panic_window := 20, button_cooldown_ms := 15000,
    volume_reset_ms := 100 }

/-- Two downstairs presses at 1000 and 2000 ms under `shortResetCfg`. -/
def shortResetRun : DoorbellState :=
  handleButton shortResetCfg (handleButton shortResetCfg doorbellInit false 1000) false 2000

/-! ## Deferred timer commands (variant A MQTT callback) -/

/-- The status notifications published on `doorbell/timer/status` by the
`doorbell/timer/set` and `doorbell/timer/stop` handlers. -/
inductive TimerNote where
  | started (seconds track volume : Int)
  | errorTimerActive
  | errorMissingFields
  | errorInvalidDuration
  | stopped
  | errorNoActiveTimer
deriving DecidableEq

/-- From variant A `struct Timer`. -/
structure DeferredTimer where
  active : Bool
  startTime : Nat
  durationMs : Nat
  track : Int
  volume : Int
deriving DecidableEq

/-- The `doorbell/timer/set` handler of the MQTT callback.  The three `has*`
flags model `doc.containsKey` on the decoded JSON payload; `seconds`,
`track` and `volume` are read with `.as<int>()`.  Checks in source order:
active timer, missing fields, non-positive duration; otherwise the timer is
armed at `now` (`millis()`) with `durationMs = (unsigned long)seconds *
1000` (`seconds` is positive here, so `Int.toNat` is exact). -/
def timerSet (t : DeferredTimer) (hasSeconds hasTrack hasVolume : Bool)
    (seconds track volume : Int) (now : Nat) : DeferredTimer × TimerNote :=
  if t.active = true then (t, .errorTimerActive)
  else if ¬ (hasSeconds = true ∧ hasTrack = true ∧ hasVolume = true) then
    (t, .errorMissingFields)
  else if seconds ≤ 0 then (t, .errorInvalidDuration)
  else ({ active := true, startTime := now, durationMs := seconds.toNat * 1000,
          track := track, volume := volume }, .started seconds track volume)

/-- The `doorbell/timer/stop` handler of the MQTT callback. -/
def timerStop (t : DeferredTimer) : DeferredTimer × TimerNote :=
  if t.active = true then ({ t with active := false }, .stopped)
  else (t, .errorNoActiveTimer)

/-! ## Theorems -/

/-- The normalised dropout cutoff equals the source expression
`ADC_THRESHOLD - ADC_HYSTERESIS`. -/
theorem adcLowCutoff_eq : adcLowCutoff = ADC_THRESHOLD - ADC_HYSTERESIS := by
  unfold adcLowCutoff ADC_THRESHOLD ADC_HYSTERESIS
  rw [Rat.mkRat_eq_div, Rat.mkRat_eq_div]
  norm_num

/-- A sample at or above the detection threshold is not below the dropout
cutoff. -/
theorem tickHigh_not_tickLow (k : Tick) (h : tickHigh k) : ¬ tickLow k := by
  have hc : adcLowCutoff < ADC_THRESHOLD := by decide
  intro hl
  rcases h with h | h
  · exact absurd (lt_of_lt_of_le hc h) (not_lt.mpr hl.1.le)
  · exact absurd (lt_of_lt_of_le hc h) (not_lt.mpr hl.2.le)

/-- Claim C7 counterexample: the conversion truncates rather than rounds.
At percent 5 the exact value is 1.5; `percentToVolume` gives 1 while the
specified `round` gives 2. -/
theorem c7_counterexample :
    percentToVolume 5 = 1 ∧ roundPercentToVolumeSpec 5 = 2 ∧
    percentToVolume 5 ≠ roundPercentToVolumeSpec 5 := by
  decide

/-- Claim C7 (amended): the conversion applied at every point of use is the
truncating `floor(percent * 30 / 100)`, which agrees with the specified
rounding on 0, 50 and 100 and everywhere falls short of it by at most one;
in particular percent 50 converts to 15, percent 0 to 0 and percent 100
to 30. -/
theorem c7_truncating_conversion :
    (∀ p : Nat, percentToVolume p ≤ roundPercentToVolumeSpec p ∧
                roundPercentToVolumeSpec p ≤ percentToVolume p + 1) ∧
    percentToVolume 50 = 15 ∧ percentToVolume 0 = 0 ∧ percentToVolume 100 = 30 := by
  refine ⟨fun p => ?_, by decide, by decide, by decide⟩
  unfold percentToVolume roundPercentToVolumeSpec
  omega

/-- Claim C9: `percentToVolume` is the truncating `(percent * 30) / 100`;
on 0–100 it stays within the native range 0–30 and is monotone
nondecreasing, but accepted `uint8_t` inputs above 103 — such as 255, which
set commands store without range validation — exceed the native maximum
of 30. -/
theorem c9_volume_conversion_range (p q : Nat) :
    percentToVolume p = p * 30 / 100 ∧
    (p ≤ 100 → percentToVolume p ≤ 30) ∧
    (p ≤ q → percentToVolume p ≤ percentToVolume q) ∧
    (103 < p → 30 < percentToVolume p) ∧
    percentToVolume 255 = 76 := by
  refine ⟨rfl, fun h => ?_, fun h => ?_, fun h => ?_, by decide⟩ <;>
    (unfold percentToVolume; omega)

/-- Witness for C9 at percent 100 and the overflowing input 255. -/
theorem c9_volume_conversion_range_witness :
    percentToVolume 100 ≤ 30 ∧ 30 < percentToVolume 255 := by
  exact ⟨(c9_volume_conversion_range 100 100).2.1 (by decide),
         (c9_volume_conversion_range 255 255).2.2.2.1 (by decide)⟩

/-- Claim C6: a `timer-set` while a timer is active reports
`TimerAlreadyActive` and leaves every field of the running timer unchanged;
a `timer-set` carrying its fields with non-positive seconds while idle
reports `InvalidDuration` and leaves the timer unchanged; `timer-stop` with
no active timer reports `NoActiveTimer`; otherwise `timer-stop` clears
`active` and changes nothing else. -/
theorem c6_timer_error_handling (t : DeferredTimer) (hs ht hv : Bool)
    (seconds track volume : Int) (now : Nat) :
    (t.active = true →
       timerSet t hs ht hv seconds track volume now = (t, .errorTimerActive)) ∧
    (t.active = false → hs = true → ht = true → hv = true → seconds ≤ 0 →
       timerSet t hs ht hv seconds track volume now = (t, .errorInvalidDuration)) ∧
    (t.active = false → timerStop t = (t, .errorNoActiveTimer)) ∧
    (t.active = true → timerStop t = ({ t with active := false }, .stopped)) := by
  refine ⟨fun h => ?_, fun h h1 h2 h3 h4 => ?_, fun h => ?_, fun h => ?_⟩ <;>
    simp [timerSet, timerStop, h, *]

/-- Witness for C6: arming a 126 s timer succeeds, a second `timer-set`
while it runs fails with the already-active error and leaves the armed
timer untouched, and stopping then clears it. -/
theorem c6_timer_error_handling_witness :
    timerSet { active := true, startTime := 7, durationMs := 126000, track := 1, volume := 100 }
        true true true 30 2 50 900 =
      ({ active := true, startTime := 7, durationMs := 126000, track := 1, volume := 100 },
       .errorTimerActive) ∧
    timerSet { active := false, startTime := 0, durationMs := 0, track := 0, volume := 0 }
        true true true 0 1 100 900 =
      ({ active := false, startTime := 0, durationMs := 0, track := 0, volume := 0 },
       .errorInvalidDuration) := by
  exact ⟨(c6_timer_error_handling _ true true true 30 2 50 900).1 rfl,
         (c6_timer_error_handling _ true true true 0 1 100 900).2.1 rfl rfl rfl rfl
           (by decide)⟩

/-- While a channel stays pressed, `isValidButtonPress` keeps `wasPressed`
and `pressStartTime` fixed and its validity flag equals whether the
elapsed hold time of the last poll reached 200 ms (validity latches, and
with monotone poll times the latch agrees with the last elapsed time). -/
theorem holdRun_pressed_char (times : List Nat) :
    ∀ (s : ButtonState) (t0 prev : Nat), s.isPressed = true → s.wasPressed = true →
    s.pressStartTime = t0 → s.isValidPress = decide (200 ≤ prev - t0) →
    List.Chain (· ≤ ·) prev times →
    (holdRun s times).isPressed = true ∧ (holdRun s times).wasPressed = true ∧
    (holdRun s times).pressStartTime = t0 ∧
    (holdRun s times).isValidPress = decide (200 ≤ times.getLastD prev - t0) := by
  induction times with
  | nil =>
    intro s t0 prev h1 h2 h3 h4 _
    exact ⟨h1, h2, h3, h4⟩
  | cons t ts ih =>
    intro s t0 prev h1 h2 h3 h4 hch
    rw [List.chain_cons] at hch
    obtain ⟨sp, sw, sps, slv, siv⟩ := s
    replace h1 : sp = true := h1
    replace h2 : sw = true := h2
    replace h3 : t0 = sps := Eq.symm h3
    subst h3
    replace h4 : siv = decide (200 ≤ prev - t0) := h4
    subst h1; subst h2; subst h4
    have hdec : decide (200 ≤ prev - t0) = false ∨ decide (200 ≤ t - t0) = true := by
      have hmono : prev - t0 ≤ t - t0 := Nat.sub_le_sub_right hch.1 t0
      by_cases hc : 200 ≤ prev - t0
      · exact Or.inr (decide_eq_true (le_trans hc hmono))
      · exact Or.inl (decide_eq_false hc)
    have hstep :
        holdRun (ButtonState.mk true true t0 slv (decide (200 ≤ prev - t0))) (t :: ts) =
          holdRun (pollButton (ButtonState.mk true true t0 slv (decide (200 ≤ prev - t0)))
            true t) ts := rfl
    rw [hstep, List.getLastD_cons]
    have hpoll : pollButton (ButtonState.mk true true t0 slv (decide (200 ≤ prev - t0))) true t =
        if 200 ≤ t - t0 then ButtonState.mk true true t0 t true
        else ButtonState.mk true true t0 slv (decide (200 ≤ prev - t0)) := by
      unfold pollButton isValidButtonPress
      split_ifs <;> simp_all
    rw [hpoll]
    split_ifs with hd
    · exact ih _ t0 t rfl rfl rfl (by simp [hd]) hch.2
    · have hval : decide (200 ≤ prev - t0) = decide (200 ≤ t - t0) := by
        rcases hdec with hf | ht
        · rw [hf, eq_comm, decide_eq_false_iff_not]
          exact hd
        · exact absurd (of_decide_eq_true ht) hd
      exact ih _ t0 t rfl rfl rfl hval hch.2


/-- Claim C4: starting from a released channel, over any monotone sequence
of polls in which the raw input is continuously high, the classifier never
reports a valid press while the hold is shorter than 200 ms, reports a
valid press (latched on every subsequent poll, since this holds for every
such poll prefix) once the hold reaches 200 ms, records the hold start in
`pressStartTime`, and on the release poll clears both `wasPressed` and the
validity flag. -/
theorem c4_debounce_classifier (s0 : ButtonState) (t0 : Nat) (rest : List Nat)
    (hw : s0.wasPressed = false)
    (hchain : List.Chain (· ≤ ·) t0 rest) :
    (rest.getLastD t0 - t0 < 200 → (holdRun s0 (t0 :: rest)).isValidPress = false) ∧
    (200 ≤ rest.getLastD t0 - t0 → (holdRun s0 (t0 :: rest)).isValidPress = true) ∧
    (holdRun s0 (t0 :: rest)).wasPressed = true ∧
    (holdRun s0 (t0 :: rest)).pressStartTime = t0 ∧
    ∀ tr : Nat, (pollButton (holdRun s0 (t0 :: rest)) false tr).wasPressed = false ∧
                (pollButton (holdRun s0 (t0 :: rest)) false tr).isValidPress = false := by
  have hstep : holdRun s0 (t0 :: rest) = holdRun (pollButton s0 true t0) rest := rfl
  have hpoll : pollButton s0 true t0 =
      ButtonState.mk true true t0 s0.lastValidPressTime false := by
    unfold pollButton isValidButtonPress
    rw [if_pos (by simp [hw])]
  have hchar := holdRun_pressed_char rest (ButtonState.mk true true t0 s0.lastValidPressTime
      false) t0 t0 rfl rfl rfl (by simp) hchain
  rw [hstep, hpoll]
  refine ⟨fun hshort => ?_, fun hlong => ?_, hchar.2.1, hchar.2.2.1, fun tr => ?_⟩
  · rw [hchar.2.2.2, decide_eq_false_iff_not]
    omega
  · rw [hchar.2.2.2, decide_eq_true_eq]
    exact hlong
  · have hw2 : (holdRun (ButtonState.mk true true t0 s0.lastValidPressTime false)
        rest).wasPressed = true := hchar.2.1
    unfold pollButton isValidButtonPress
    rw [if_neg (by simp), if_neg (by simp), if_pos (by simp [hw2])]
    exact ⟨rfl, rfl⟩

/-- Witness for C4: from the initial state, a hold sampled at 0, 100 and
250 ms reports a valid press, while one sampled at 0 and 100 ms does not;
releasing after the long hold clears both flags. -/
theorem c4_debounce_classifier_witness :
    (holdRun buttonInit [0, 100, 250]).isValidPress = true ∧
    (holdRun buttonInit [0, 100]).isValidPress = false ∧
    (pollButton (holdRun buttonInit [0, 100, 250]) false 260).wasPressed = false ∧
    (pollButton (holdRun buttonInit [0, 100, 250]) false 260).isValidPress = false := by
  have hlong := c4_debounce_classifier buttonInit 0 [100, 250] rfl
    (by norm_num [List.chain_cons])
  have hshort := c4_debounce_classifier buttonInit 0 [100] rfl
    (by norm_num [List.chain_cons])
  exact ⟨hlong.2.1 (by decide), hshort.1 (by decide), (hlong.2.2.2.2 260).1,
         (hlong.2.2.2.2 260).2⟩

/-- The normal doorbell section never touches the panic bookkeeping. -/
theorem normalDoorbell_panic_fields (cfg : DeviceConfig) (s : DoorbellState) (now : Nat) :
    (normalDoorbell cfg s now).pressCount = s.pressCount ∧
    (normalDoorbell cfg s now).firstPressTime = s.firstPressTime ∧
    (normalDoorbell cfg s now).emergencyMode = s.emergencyMode := by
  unfold normalDoorbell
  split_ifs <;> exact ⟨rfl, rfl, rfl⟩

/-- The normal doorbell section is a no-op in emergency mode and while a
playback is marked in progress inside the cooldown window. -/
theorem normalDoorbell_blocked (cfg : DeviceConfig) (s : DoorbellState) (now : Nat)
    (h : s.emergencyMode = true ∨
         (s.isPlaying = true ∧ now - s.lastPlayTime < cfg.button_cooldown_ms)) :
    normalDoorbell cfg s now = s := by
  unfold normalDoorbell
  split_ifs with h1 h2
  · rfl
  · rfl
  · rcases h with h | h
    · exact absurd h h1
    · exact absurd h h2

/-- When the debounce gate passes, `handleButton` is the panic-plus-normal
section applied after the `lastDebounceTime` update and the volume-reset
step. -/
theorem handleButton_gate (cfg : DeviceConfig) (s : DoorbellState) (isDoor : Bool) (now : Nat)
    (hdb : debounceDelay ≤ now - s.lastDebounceTime) :
    handleButton cfg s isDoor now =
      panicThenNormal cfg (volumeResetStep cfg { s with lastDebounceTime := now } now)
        isDoor now := by
  unfold handleButton
  rw [if_neg (not_lt.mpr hdb)]

/-- The volume-reset step only ever touches `isPlaying`. -/
theorem volumeResetStep_fields (cfg : DeviceConfig) (s : DoorbellState) (now : Nat) :
    (volumeResetStep cfg s now).pressCount = s.pressCount ∧
    (volumeResetStep cfg s now).firstPressTime = s.firstPressTime ∧
    (volumeResetStep cfg s now).emergencyMode = s.emergencyMode ∧
    (volumeResetStep cfg s now).lastPlayTime = s.lastPlayTime ∧
    (volumeResetStep cfg s now).volumeResetTimer = s.volumeResetTimer ∧
    (volumeResetStep cfg s now).plays = s.plays := by
  unfold volumeResetStep
  split_ifs <;> exact ⟨rfl, rfl, rfl, rfl, rfl, rfl⟩

/-- Claim C5 counterexample: with a 1 s window, door presses at 1000, 1600
and 2200 ms all have inter-press gaps of 600 ms ≤ panicWindow, so by the
claim the count should increment to 3 at the third press; the code instead
resets it to 1, because it measures the window from the first press of the
sequence (1200 ms > 1 s), not from the previous press. -/
theorem c5_counterexample :
    (handleButton panicCfg (handleButton panicCfg doorbellInit true 1000) true 1600).pressCount
        = 2 ∧
    1600 - 1000 ≤ panicCfg.panic_window * 1000 ∧
    2200 - 1600 ≤ panicCfg.panic_window * 1000 ∧
    panicRun.pressCount = 1 ∧ panicRun.pressCount ≠ 2 + 1 := by
  decide

/-- Claim C5 (amended): for qualifying (door, debounce-passing,
non-emergency) presses, the count resets to 1 whenever the gap since the
FIRST press of the current window (`firstPressTime`) exceeds `panicWindow`,
and increments otherwise; when the incremented count reaches
`panic_press_threshold` the detector enters emergency mode exactly once per
qualifying run (further presses inside emergency mode change nothing) and
resets the count to 0. -/
theorem c5_panic_window_from_first (cfg : DeviceConfig) (s : DoorbellState) (now : Nat)
    (hdb : debounceDelay ≤ now - s.lastDebounceTime) :
    (s.emergencyMode = true → (handleButton cfg s true now).emergencyMode = true ∧
       (handleButton cfg s true now).pressCount = s.pressCount) ∧
    (s.emergencyMode = false → s.pressCount = 0 →
       (handleButton cfg s true now).pressCount = 1 ∧
       (handleButton cfg s true now).firstPressTime = now ∧
       (handleButton cfg s true now).emergencyMode = false) ∧
    (s.emergencyMode = false → 1 ≤ s.pressCount →
       cfg.panic_window * 1000 < now - s.firstPressTime →
       (handleButton cfg s true now).pressCount = 1 ∧
       (handleButton cfg s true now).firstPressTime = now ∧
       (handleButton cfg s true now).emergencyMode = false) ∧
    (s.emergencyMode = false → 1 ≤ s.pressCount →
       now - s.firstPressTime ≤ cfg.panic_window * 1000 →
       (cfg.panic_press_threshold ≤ s.pressCount + 1 →
          (handleButton cfg s true now).emergencyMode = true ∧
          (handleButton cfg s true now).pressCount = 0) ∧
       (s.pressCount + 1 < cfg.panic_press_threshold →
          (handleButton cfg s true now).pressCount = s.pressCount + 1 ∧
          (handleButton cfg s true now).firstPressTime = s.firstPressTime ∧
          (handleButton cfg s true now).emergencyMode = false)) := by
  rw [handleButton_gate cfg s true now hdb]
  have hvf := volumeResetStep_fields cfg { s with lastDebounceTime := now } now
  set s2 := volumeResetStep cfg { s with lastDebounceTime := now } now with hs2
  have hc : s2.pressCount = s.pressCount := hvf.1
  have hf : s2.firstPressTime = s.firstPressTime := hvf.2.1
  have he : s2.emergencyMode = s.emergencyMode := hvf.2.2.1
  refine ⟨fun hem => ?_, fun hem hc0 => ?_, fun hem hc1 hwout => ?_, fun hem hc1 hwin => ?_⟩
  · have hA : ¬ (s2.emergencyMode = false ∧ true = true) := by
      simp [he, hem]
    unfold panicThenNormal
    rw [if_neg hA, normalDoorbell_blocked cfg s2 now (Or.inl (he.trans hem))]
    exact ⟨he.trans hem, hc⟩
  · have hA : s2.emergencyMode = false ∧ true = true := ⟨he.trans hem, rfl⟩
    have hB : s2.pressCount = 0 := hc.trans hc0
    unfold panicThenNormal
    rw [if_pos hA, if_pos hB]
    have hn := normalDoorbell_panic_fields cfg { s2 with firstPressTime := now, pressCount := 1 } now
    exact ⟨hn.1, hn.2.1, hn.2.2.trans (he.trans hem)⟩
  · have hA : s2.emergencyMode = false ∧ true = true := ⟨he.trans hem, rfl⟩
    have hB : ¬ s2.pressCount = 0 := by rw [hc]; omega
    have hC : ¬ (now - s2.firstPressTime ≤ cfg.panic_window * 1000) := by
      rw [hf]; omega
    unfold panicThenNormal
    rw [if_pos hA, if_neg hB, if_neg hC]
    have hn := normalDoorbell_panic_fields cfg { s2 with firstPressTime := now, pressCount := 1 } now
    exact ⟨hn.1, hn.2.1, hn.2.2.trans (he.trans hem)⟩
  · have hA : s2.emergencyMode = false ∧ true = true := ⟨he.trans hem, rfl⟩
    have hB : ¬ s2.pressCount = 0 := by rw [hc]; omega
    have hC : now - s2.firstPressTime ≤ cfg.panic_window * 1000 := by
      rw [hf]; omega
    unfold panicThenNormal
    rw [if_pos hA, if_neg hB, if_pos hC]
    constructor
    · intro hth
      have hD : cfg.panic_press_threshold ≤ s2.pressCount + 1 := by rw [hc]; omega
      rw [if_pos hD]
      exact ⟨rfl, rfl⟩
    · intro hth
      have hD : ¬ cfg.panic_press_threshold ≤ s2.pressCount + 1 := by rw [hc]; omega
      rw [if_neg hD]
      have hn := normalDoorbell_panic_fields cfg { s2 with pressCount := s2.pressCount + 1 } now
      refine ⟨hn.1.trans ?_, hn.2.1.trans hf, hn.2.2.trans (he.trans hem)⟩
      rw [hc]

/-- Witness for C5 (amended) on the `panicRun` scenario: the third press at
2200 ms arrives 1200 ms after the window start at 1000 ms, which exceeds
the 1 s window, so the count resets to 1. -/
theorem c5_panic_window_from_first_witness :
    (handleButton panicCfg
        (handleButton panicCfg (handleButton panicCfg doorbellInit true 1000) true 1600)
        true 2200).pressCount = 1 := by
  have h := c5_panic_window_from_first panicCfg
    (handleButton panicCfg (handleButton panicCfg doorbellInit true 1000) true 1600) 2200
    (by decide)
  exact (h.2.2.1 (by decide) (by decide) (by decide)).1

/-- Claim C10: the panic detector compares against the threshold only on
presses that increment an existing window; the first press of a new
sequence sets the count to 1 with no threshold comparison, so for every
configuration — including `panic_press_threshold` 0 or 1 — a single
isolated door press never activates emergency mode: activation requires a
prior press in the window (hence at least two presses within
`panic_window`). -/
theorem c10_two_presses_required (cfg : DeviceConfig) (s : DoorbellState) (now : Nat)
    (hdb : debounceDelay ≤ now - s.lastDebounceTime) :
    (s.emergencyMode = false → s.pressCount = 0 →
       (handleButton cfg s true now).emergencyMode = false ∧
       (handleButton cfg s true now).pressCount = 1) ∧
    ((handleButton cfg s true now).emergencyMode = true → s.emergencyMode = false →
       1 ≤ s.pressCount ∧ now - s.firstPressTime ≤ cfg.panic_window * 1000) := by
  rw [handleButton_gate cfg s true now hdb]
  have hvf := volumeResetStep_fields cfg { s with lastDebounceTime := now } now
  set s2 := volumeResetStep cfg { s with lastDebounceTime := now } now with hs2
  have hc : s2.pressCount = s.pressCount := hvf.1
  have hf : s2.firstPressTime = s.firstPressTime := hvf.2.1
  have he : s2.emergencyMode = s.emergencyMode := hvf.2.2.1
  constructor
  · intro hem hc0
    have hA : s2.emergencyMode = false ∧ true = true := ⟨he.trans hem, rfl⟩
    have hB : s2.pressCount = 0 := hc.trans hc0
    unfold panicThenNormal
    rw [if_pos hA, if_pos hB]
    have hn := normalDoorbell_panic_fields cfg
      { s2 with firstPressTime := now, pressCount := 1 } now
    exact ⟨hn.2.2.trans (he.trans hem), hn.1⟩
  · intro hres hem
    have hA : s2.emergencyMode = false ∧ true = true := ⟨he.trans hem, rfl⟩
    by_cases hB : s2.pressCount = 0
    · exfalso
      unfold panicThenNormal at hres
      rw [if_pos hA, if_pos hB] at hres
      have hn := normalDoorbell_panic_fields cfg
        { s2 with firstPressTime := now, pressCount := 1 } now
      rw [hn.2.2.trans (he.trans hem)] at hres
      exact Bool.false_ne_true hres
    · by_cases hC : now - s2.firstPressTime ≤ cfg.panic_window * 1000
      · refine ⟨by rw [← hc]; omega, by rw [← hf]; exact hC⟩
      · exfalso
        unfold panicThenNormal at hres
        rw [if_pos hA, if_neg hB, if_neg hC] at hres
        have hn := normalDoorbell_panic_fields cfg
          { s2 with firstPressTime := now, pressCount := 1 } now
        rw [hn.2.2.trans (he.trans hem)] at hres
        exact Bool.false_ne_true hres

/-- Witness for C10: with threshold 1 — the most permissive configuration —
a single isolated door press from the initial state still leaves emergency
mode off and the count at 1. -/
theorem c10_two_presses_required_witness :
    (handleButton
        { panic_press_threshold := 1, panic_window := 20, button_cooldown_ms := 15000,
          volume_reset_ms := 60000 } doorbellInit true 1000).emergencyMode = false ∧
    (handleButton
        { panic_press_threshold := 1, panic_window := 20, button_cooldown_ms := 15000,
          volume_reset_ms := 60000 } doorbellInit true 1000).pressCount = 1 := by
  exact (c10_two_presses_required
    { panic_press_threshold := 1, panic_window := 20, button_cooldown_ms := 15000,
      volume_reset_ms := 60000 } doorbellInit 1000 (by decide)).1 rfl rfl

/-- Claim C8 counterexample: under `shortResetCfg` (volume-reset 100 ms <
cooldown 15 s) a normal playback starts at 1000 ms and a second normal
playback starts at 2000 ms, only 1000 ms — far less than
`button_cooldown_ms` — after the first: the volume-reset step cleared
`isPlaying`, and variant B gates the cooldown on `isPlaying &&` rather
than `isPlaying ||`. -/
theorem c8_counterexample :
    shortResetRun.plays = [1000, 2000] ∧
    2000 - 1000 < shortResetCfg.button_cooldown_ms := by
  decide

/-- Claim C8 (amended): the cooldown blocks a second normal playback only
in conjunction with the playing flag.  In variant A, `handleNormalDoorbell`
refuses to start a playback whenever the cooldown since `lastPlayTime` has
not elapsed; in variant B, `handleButton` starts no playback while
`isPlaying` is still set, the volume-reset timeout has not fired and the
cooldown has not elapsed — but once `isPlaying` clears, a playback may
start inside the cooldown window (as `c8_counterexample` shows). -/
theorem c8_cooldown_blocks_while_playing :
    (∀ (cooldown : Nat) (m : AdcMachine) (now : Nat),
       now - m.lastPlayTime < cooldown → handleNormalDoorbell cooldown m now = m) ∧
    (∀ (cfg : DeviceConfig) (s : DoorbellState) (isDoor : Bool) (now : Nat),
       s.isPlaying = true → now - s.volumeResetTimer < cfg.volume_reset_ms →
       now - s.lastPlayTime < cfg.button_cooldown_ms →
       (handleButton cfg s isDoor now).plays = s.plays) := by
  constructor
  · intro cooldown m now h
    unfold handleNormalDoorbell
    rw [if_pos (Or.inr h)]
  · intro cfg s isDoor now hplay hreset hcool
    by_cases hdb : now - s.lastDebounceTime < debounceDelay
    · unfold handleButton
      rw [if_pos hdb]
    · rw [handleButton_gate cfg s isDoor now (not_lt.mp hdb)]
      have hs2 : volumeResetStep cfg { s with lastDebounceTime := now } now =
          { s with lastDebounceTime := now } := by
        unfold volumeResetStep
        rw [if_neg]
        intro hcond
        exact absurd hcond.2 (not_le.mpr hreset)
      rw [hs2]
      set s2 : DoorbellState := { s with lastDebounceTime := now } with hs2def
      have hp2 : s2.isPlaying = true := hplay
      have hl2 : now - s2.lastPlayTime < cfg.button_cooldown_ms := hcool
      unfold panicThenNormal
      split_ifs with hA hB hC hD
      · exact (congrArg DoorbellState.plays (normalDoorbell_blocked cfg
          { s2 with firstPressTime := now, pressCount := 1 } now
          (Or.inr ⟨hp2, hl2⟩))).trans rfl
      · rfl
      · exact (congrArg DoorbellState.plays (normalDoorbell_blocked cfg
          { s2 with pressCount := s2.pressCount + 1 } now
          (Or.inr ⟨hp2, hl2⟩))).trans rfl
      · exact (congrArg DoorbellState.plays (normalDoorbell_blocked cfg
          { s2 with firstPressTime := now, pressCount := 1 } now
          (Or.inr ⟨hp2, hl2⟩))).trans rfl
      · exact (congrArg DoorbellState.plays (normalDoorbell_blocked cfg s2 now
          (Or.inr ⟨hp2, hl2⟩))).trans rfl

/-- Witness for C8 (amended): a press 1000 ms after a playback that is
still marked playing under the default configuration (cooldown 15 s,
volume-reset 60 s) starts nothing. -/
theorem c8_cooldown_blocks_while_playing_witness :
    (handleButton
        { panic_press_threshold := 5, panic_window := 20, button_cooldown_ms := 15000,
          volume_reset_ms := 60000 }
        { doorbellInit with isPlaying := true, lastPlayTime := 1000,
                            volumeResetTimer := 1000 } false 2000).plays = [] := by
  exact c8_cooldown_blocks_while_playing.2
    { panic_press_threshold := 5, panic_window := 20, button_cooldown_ms := 15000,
      volume_reset_ms := 60000 }
    { doorbellInit with isPlaying := true, lastPlayTime := 1000, volumeResetTimer := 1000 }
    false 2000 rfl (by decide) (by decide)

/-- `analyzeSession` reports and forwards to the doorbell handler; it never
modifies the session itself nor the dropout timestamp. -/
theorem analyzeSession_session (cooldown : Nat) (m : AdcMachine) (now : Nat) :
    (analyzeSession cooldown m now).session = m.session ∧
    (analyzeSession cooldown m now).lastValidVoltage = m.lastValidVoltage := by
  unfold analyzeSession handleNormalDoorbell
  split_ifs <;> exact ⟨rfl, rfl⟩

/-- A sample below the dropout cutoff on both channels is not above the
detection threshold on either. -/
theorem tickLow_not_tickHigh (k : Tick) (h : tickLow k) : ¬ tickHigh k :=
  fun hh => tickHigh_not_tickLow k hh h

/-- `checkADC` on an idle machine whose start condition fails is a no-op. -/
theorem checkADC_no_session (cooldown : Nat) (m : AdcMachine) (k : Tick)
    (hin : m.session.isActive = false)
    (hns : ¬ (tickHigh k ∧ m.session.isActive = false ∧ m.isPlaying = false)) :
    checkADC cooldown m k = m := by
  unfold checkADC adcStart
  rw [if_neg hns]
  unfold adcActive
  rw [if_neg (by simp [hin])]

/-- `checkADC` when the session buffer is full: the session is just marked
inactive, nothing else changes (no analysis, no reset of the other session
fields). -/
theorem checkADC_buffer_full (cooldown : Nat) (m : AdcMachine) (k : Tick)
    (hact : m.session.isActive = true)
    (hfull : MAX_SESSION_SAMPLES ≤ m.session.readings.length) :
    checkADC cooldown m k = { m with session := { m.session with isActive := false } } := by
  unfold checkADC adcStart
  rw [if_neg (by simp [hact])]
  unfold adcActive
  rw [if_pos hact, if_pos hfull]

/-- `checkADC` on an already active session with buffer room appends the
reading and classifies. -/
theorem checkADC_active_step (cooldown : Nat) (m : AdcMachine) (k : Tick)
    (hact : m.session.isActive = true)
    (hroom : m.session.readings.length < MAX_SESSION_SAMPLES) :
    checkADC cooldown m k =
      adcClassify cooldown { m with session := applyReading m.session k } k := by
  unfold checkADC adcStart
  rw [if_neg (by simp [hact])]
  unfold adcActive
  rw [if_pos hact, if_neg (not_le.mpr hroom)]

/-- `checkADC` on a starting tick: the session opens, the tick is recorded
and, since the starting voltage is above threshold and the fresh session
has duration 0, `lastValidVoltage` is set to the tick time. -/
theorem checkADC_start_eq (cooldown : Nat) (m : AdcMachine) (k : Tick)
    (h1 : tickHigh k) (h2 : m.session.isActive = false) (h3 : m.isPlaying = false) :
    checkADC cooldown m k =
      { m with session := applyReading (startSession m.session k) k,
               lastValidVoltage := k.t } := by
  have hnl := tickHigh_not_tickLow k h1
  unfold checkADC adcStart
  rw [if_pos ⟨h1, h2, h3⟩]
  unfold adcActive adcClassify
  simp [startSession, applyReading, MAX_SESSION_SAMPLES, MIN_SESSION_DURATION, hnl, h1]

/-- Dropout branch of the classification, inside the tolerance window: the
tick is absorbed and the session continues unchanged. -/
theorem adcClassify_low_within (cooldown : Nat) (m : AdcMachine) (k : Tick)
    (hl : tickLow k) (ht : k.t - m.lastValidVoltage ≤ ADC_DROPOUT_TOLERANCE) :
    adcClassify cooldown m k = m := by
  unfold adcClassify
  rw [if_pos hl, if_pos ht]

/-- Dropout branch beyond the tolerance window: the session ends. -/
theorem adcClassify_low_beyond (cooldown : Nat) (m : AdcMachine) (k : Tick)
    (hl : tickLow k) (ht : ¬ (k.t - m.lastValidVoltage ≤ ADC_DROPOUT_TOLERANCE)) :
    (adcClassify cooldown m k).session.isActive = false := by
  unfold adcClassify
  rw [if_pos hl, if_neg ht]
  rfl

/-- Minimum-session-duration end: the session ends. -/
theorem adcClassify_minDur (cooldown : Nat) (m : AdcMachine) (k : Tick)
    (hl : ¬ tickLow k) (hd : MIN_SESSION_DURATION ≤ k.t - m.session.startTime) :
    (adcClassify cooldown m k).session.isActive = false := by
  unfold adcClassify
  rw [if_neg hl, if_pos hd]
  rfl

/-- Continuing tick above threshold: only `lastValidVoltage` is refreshed. -/
theorem adcClassify_continue_high (cooldown : Nat) (m : AdcMachine) (k : Tick)
    (hl : ¬ tickLow k) (hd : ¬ (MIN_SESSION_DURATION ≤ k.t - m.session.startTime))
    (hh : tickHigh k) :
    adcClassify cooldown m k = { m with lastValidVoltage := k.t } := by
  unfold adcClassify
  rw [if_neg hl, if_neg hd, if_pos hh]

/-- Continuing tick between the cutoff and the threshold: nothing changes. -/
theorem adcClassify_continue_mid (cooldown : Nat) (m : AdcMachine) (k : Tick)
    (hl : ¬ tickLow k) (hd : ¬ (MIN_SESSION_DURATION ≤ k.t - m.session.startTime))
    (hh : ¬ tickHigh k) :
    adcClassify cooldown m k = m := by
  unfold adcClassify
  rw [if_neg hl, if_neg hd, if_neg hh]

/-- Claim C3: the attributed channel is decided exactly at the
Idle-to-Active transition — DOOR (`buttonDetected = 1`, the second channel)
whenever `voltage2` is at or above threshold, otherwise DOWNSTAIRS
(`buttonDetected = 0`) — and every sample that leaves the session active
leaves the attribution unchanged;  it changes only when the session is
reset to inactive. -/
theorem c3_attribution_invariant (cooldown : Nat) (m : AdcMachine) (k : Tick) :
    (m.session.isActive = false → (checkADC cooldown m k).session.isActive = true →
       (checkADC cooldown m k).session.buttonDetected =
         if ADC_THRESHOLD ≤ k.v2 then 1 else 0) ∧
    (m.session.isActive = true → (checkADC cooldown m k).session.isActive = true →
       (checkADC cooldown m k).session.buttonDetected = m.session.buttonDetected) := by
  constructor
  · intro hin hact
    by_cases hstart : tickHigh k ∧ m.session.isActive = false ∧ m.isPlaying = false
    · rw [checkADC_start_eq cooldown m k hstart.1 hstart.2.1 hstart.2.2]
      show (if ADC_THRESHOLD ≤ k.v2 then (1 : Int)
            else if ADC_THRESHOLD ≤ k.v1 then 0 else m.session.buttonDetected) =
           if ADC_THRESHOLD ≤ k.v2 then 1 else 0
      by_cases hv2 : ADC_THRESHOLD ≤ k.v2
      · rw [if_pos hv2, if_pos hv2]
      · rcases hstart.1 with hv1 | hv2x
        · rw [if_neg hv2, if_neg hv2, if_pos hv1]
        · exact absurd hv2x hv2
    · rw [checkADC_no_session cooldown m k hin hstart] at hact
      exact absurd (hin.symm.trans hact) (by decide)
  · intro hactm hact
    by_cases hroom : m.session.readings.length < MAX_SESSION_SAMPLES
    · rw [checkADC_active_step cooldown m k hactm hroom] at hact ⊢
      set m2 : AdcMachine := { m with session := applyReading m.session k } with hm2
      by_cases hl : tickLow k
      · by_cases ht : k.t - m2.lastValidVoltage ≤ ADC_DROPOUT_TOLERANCE
        · rw [adcClassify_low_within cooldown m2 k hl ht]
          rfl
        · rw [adcClassify_low_beyond cooldown m2 k hl ht] at hact
          exact absurd hact (by decide)
      · by_cases hd : MIN_SESSION_DURATION ≤ k.t - m2.session.startTime
        · rw [adcClassify_minDur cooldown m2 k hl hd] at hact
          exact absurd hact (by decide)
        · by_cases hh : tickHigh k
          · rw [adcClassify_continue_high cooldown m2 k hl hd hh]
            rfl
          · rw [adcClassify_continue_mid cooldown m2 k hl hd hh]
            rfl
    · rw [checkADC_buffer_full cooldown m k hactm (not_lt.mp hroom)] at hact
      exact absurd hact Bool.false_ne_true

/-- Witness for C3: a session started by channel 2 at 3.2 V is attributed
to DOOR (`buttonDetected = 1`). -/
theorem c3_attribution_invariant_witness :
    (checkADC 15000 adcInit { t := 0, v1 := 0, v2 := mkRat 16 5 }).session.buttonDetected
      = 1 := by
  have h := (c3_attribution_invariant 15000 adcInit
    { t := 0, v1 := 0, v2 := mkRat 16 5 }).1 rfl (by decide)
  rw [h]
  decide

/-- Splitting strict monotonicity of the sample timestamps at the last
sample. -/
theorem ticksAscending_append (ts : List Tick) (k : Tick)
    (h : ticksAscending (ts ++ [k])) :
    ticksAscending ts ∧ ∀ j ∈ ts, j.t < k.t := by
  unfold ticksAscending at h ⊢
  rw [List.pairwise_append] at h
  exact ⟨h.1, fun j hj => h.2.2 j hj k (List.mem_singleton_self k)⟩

/-- Appending an above-threshold in-session sample moves the last high
timestamp to it. -/
theorem sessionLastHigh_append_high (ts : List Tick) (k : Tick) (st : Nat)
    (hst : st ≤ k.t) (hh : tickHigh k) :
    sessionLastHigh (ts ++ [k]) st = some k.t := by
  unfold sessionLastHigh
  rw [List.filter_append]
  have hk : [k].filter (fun j => decide (st ≤ j.t ∧ tickHigh j)) = [k] := by
    simp [hst, hh]
  rw [hk, List.getLast?_concat]
  rfl

/-- Appending a below-threshold sample leaves the last high timestamp
unchanged. -/
theorem sessionLastHigh_append_nothigh (ts : List Tick) (k : Tick) (st : Nat)
    (hh : ¬ tickHigh k) :
    sessionLastHigh (ts ++ [k]) st = sessionLastHigh ts st := by
  unfold sessionLastHigh
  rw [List.filter_append]
  have hk : [k].filter (fun j => decide (st ≤ j.t ∧ tickHigh j)) = [] := by
    simp [hh]
  rw [hk, List.append_nil]

/-- One `checkADC` sample preserves the `lastValidVoltage` invariant. -/
theorem AdcInv_step (cooldown : Nat) (ts : List Tick) (m : AdcMachine) (k : Tick)
    (hlt : ∀ j ∈ ts, j.t < k.t) (hinv : AdcInv ts m) :
    AdcInv (ts ++ [k]) (checkADC cooldown m k) := by
  intro hact
  by_cases hactm : m.session.isActive = true
  · obtain ⟨ih1, ih2, j0, hj0, hj0t⟩ := hinv hactm
    have hLlt : m.lastValidVoltage < k.t := hj0t ▸ hlt j0 hj0
    have hstk : m.session.startTime ≤ k.t := le_of_lt (lt_of_le_of_lt ih2 hLlt)
    by_cases hroom : m.session.readings.length < MAX_SESSION_SAMPLES
    · rw [checkADC_active_step cooldown m k hactm hroom] at hact ⊢
      by_cases hl : tickLow k
      · by_cases htol : k.t - m.lastValidVoltage ≤ ADC_DROPOUT_TOLERANCE
        · rw [adcClassify_low_within cooldown
            { m with session := applyReading m.session k } k hl htol]
          exact ⟨by
              show sessionLastHigh (ts ++ [k]) m.session.startTime = some m.lastValidVoltage
              rw [sessionLastHigh_append_nothigh ts k _ (tickLow_not_tickHigh k hl)]
              exact ih1,
            ih2, j0, List.mem_append_left _ hj0, hj0t⟩
        · rw [adcClassify_low_beyond cooldown
            { m with session := applyReading m.session k } k hl htol] at hact
          exact absurd hact Bool.false_ne_true
      · by_cases hd : MIN_SESSION_DURATION ≤ k.t - m.session.startTime
        · rw [adcClassify_minDur cooldown
            { m with session := applyReading m.session k } k hl hd] at hact
          exact absurd hact Bool.false_ne_true
        · by_cases hh : tickHigh k
          · rw [adcClassify_continue_high cooldown
              { m with session := applyReading m.session k } k hl hd hh]
            exact ⟨by
                show sessionLastHigh (ts ++ [k]) m.session.startTime = some k.t
                exact sessionLastHigh_append_high ts k _ hstk hh,
              hstk, k, List.mem_append_right _ (List.mem_singleton_self k), rfl⟩
          · rw [adcClassify_continue_mid cooldown
              { m with session := applyReading m.session k } k hl hd hh]
            exact ⟨by
                show sessionLastHigh (ts ++ [k]) m.session.startTime = some m.lastValidVoltage
                rw [sessionLastHigh_append_nothigh ts k _ hh]
                exact ih1,
              ih2, j0, List.mem_append_left _ hj0, hj0t⟩
    · rw [checkADC_buffer_full cooldown m k hactm (not_lt.mp hroom)] at hact
      exact absurd hact Bool.false_ne_true
  · have hin : m.session.isActive = false := Bool.eq_false_iff.mpr hactm
    by_cases hstart : tickHigh k ∧ m.session.isActive = false ∧ m.isPlaying = false
    · rw [checkADC_start_eq cooldown m k hstart.1 hstart.2.1 hstart.2.2]
      exact ⟨by
          show sessionLastHigh (ts ++ [k]) k.t = some k.t
          exact sessionLastHigh_append_high ts k k.t (le_refl k.t) hstart.1,
        le_refl k.t, k, List.mem_append_right _ (List.mem_singleton_self k), rfl⟩
    · rw [checkADC_no_session cooldown m k hin hstart] at hact
      exact absurd (hin.symm.trans hact) (by decide)

/-- Over any strictly increasing sample stream, the `lastValidVoltage`
invariant holds of the machine reached from the initial state. -/
theorem runADC_lastValid (cooldown : Nat) :
    ∀ ts : List Tick, ticksAscending ts → AdcInv ts (runADC cooldown ts) := by
  intro ts
  induction ts using List.reverseRecOn with
  | nil =>
    intro _ hact
    exact absurd hact Bool.false_ne_true
  | append_singleton ts k ih =>
    intro hasc
    obtain ⟨hasc0, hlt⟩ := ticksAscending_append ts k hasc
    have hrun : runADC cooldown (ts ++ [k]) = checkADC cooldown (runADC cooldown ts) k := by
      unfold runADC
      rw [List.foldl_append]
      rfl
    rw [hrun]
    exact AdcInv_step cooldown ts (runADC cooldown ts) k hlt (ih hasc0)

/-- Claim C1: while a session is active with buffer room, a sample on which
both voltages lie below `ADC_THRESHOLD - ADC_HYSTERESIS` never deactivates
the session when less than `ADC_DROPOUT_TOLERANCE` (15 ms) has elapsed
since the last above-threshold sample of the session (whose timestamp `L`
is characterised through `sessionLastHigh`), and always deactivates it once
more than `ADC_DROPOUT_TOLERANCE` has elapsed since that sample. -/
theorem c1_dropout_tolerance (cooldown : Nat) (ts : List Tick) (k : Tick) (L : Nat)
    (hasc : ticksAscending (ts ++ [k]))
    (hact : (runADC cooldown ts).session.isActive = true)
    (hroom : (runADC cooldown ts).session.readings.length < MAX_SESSION_SAMPLES)
    (hlow1 : k.v1 < ADC_THRESHOLD - ADC_HYSTERESIS)
    (hlow2 : k.v2 < ADC_THRESHOLD - ADC_HYSTERESIS)
    (hlast : sessionLastHigh ts (runADC cooldown ts).session.startTime = some L) :
    (k.t - L < ADC_DROPOUT_TOLERANCE →
       (checkADC cooldown (runADC cooldown ts) k).session.isActive = true) ∧
    (ADC_DROPOUT_TOLERANCE < k.t - L →
       (checkADC cooldown (runADC cooldown ts) k).session.isActive = false) := by
  have hlow : tickLow k := by
    constructor
    · rw [adcLowCutoff_eq]
      exact hlow1
    · rw [adcLowCutoff_eq]
      exact hlow2
  obtain ⟨hasc0, -⟩ := ticksAscending_append ts k hasc
  obtain ⟨i1, -, -⟩ := runADC_lastValid cooldown ts hasc0 hact
  have hLeq : L = (runADC cooldown ts).lastValidVoltage :=
    Option.some.inj (hlast.symm.trans i1)
  constructor
  · intro hwithin
    rw [checkADC_active_step cooldown _ k hact hroom]
    have htol : k.t - (runADC cooldown ts).lastValidVoltage ≤ ADC_DROPOUT_TOLERANCE := by
      rw [← hLeq]
      exact le_of_lt hwithin
    rw [adcClassify_low_within cooldown
      { (runADC cooldown ts) with session := applyReading (runADC cooldown ts).session k }
      k hlow htol]
    exact hact
  · intro hbeyond
    rw [checkADC_active_step cooldown _ k hact hroom]
    have htol : ¬ (k.t - (runADC cooldown ts).lastValidVoltage ≤ ADC_DROPOUT_TOLERANCE) := by
      rw [← hLeq]
      exact not_le.mpr hbeyond
    exact adcClassify_low_beyond cooldown
      { (runADC cooldown ts) with session := applyReading (runADC cooldown ts).session k }
      k hlow htol

/-- Witness for C1: after a session starts at t = 0 on channel 2 (3.2 V),
a fully low sample at t = 10 (within tolerance of the last high sample at
t = 0) keeps the session active, while a fully low sample at t = 30
(beyond tolerance) deactivates it. -/
theorem c1_dropout_tolerance_witness :
    (checkADC 15000 (runADC 15000 [{ t := 0, v1 := 0, v2 := mkRat 16 5 }])
       { t := 10, v1 := 0, v2 := 0 }).session.isActive = true ∧
    (checkADC 15000 (runADC 15000 [{ t := 0, v1 := 0, v2 := mkRat 16 5 }])
       { t := 30, v1 := 0, v2 := 0 }).session.isActive = false := by
  constructor
  · exact (c1_dropout_tolerance 15000 [{ t := 0, v1 := 0, v2 := mkRat 16 5 }]
      { t := 10, v1 := 0, v2 := 0 } 0 (by decide) (by decide) (by decide)
      (by rw [← adcLowCutoff_eq]; decide) (by rw [← adcLowCutoff_eq]; decide)
      (by decide)).1 (by decide)
  · exact (c1_dropout_tolerance 15000 [{ t := 0, v1 := 0, v2 := mkRat 16 5 }]
      { t := 30, v1 := 0, v2 := 0 } 0 (by decide) (by decide) (by decide)
      (by rw [← adcLowCutoff_eq]; decide) (by rw [← adcLowCutoff_eq]; decide)
      (by decide)).2 (by decide)

/-- Claim C2 counterexample: on the scenario stream (channel 2 at 3.2 V for
250 ms, 0 V for 5 ms, 3.1 V for 100 ms, then 0 V) the classifier emits
exactly one validated session, attributed to channel 2 (DOOR, button 1) —
but its duration is `endTime - startTime = 200 - 0 = 200 ms`, strictly less
than the 350 ms the claim requires: the session is closed by the
`MIN_SESSION_DURATION` end condition at 200 ms, and the activity after the
tolerated dropout falls into a second session that is discarded as too
short. -/
theorem c2_counterexample :
    (runADC 15000 scenarioTicks).events =
      [{ button := 1, startTime := 0, endTime := 200 }] ∧
    200 - 0 < 350 := by
  constructor
  · set_option maxRecDepth 40000 in decide
  · decide

/-- Claim C2 (amended): on the scenario stream the classifier produces
exactly one validated ended session, attributed to channel 2 (DOOR), whose
total duration is exactly `MIN_SESSION_DURATION` (200 ms): the session ends
as soon as it reaches the minimum duration, so the dropout-tolerated
continuation is not part of it and the duration never reaches 350 ms. -/
theorem c2_min_duration_session :
    (runADC 15000 scenarioTicks).events.map
      (fun e => (e.button, e.endTime - e.startTime)) = [(1, MIN_SESSION_DURATION)] := by
  set_option maxRecDepth 40000 in decide
